import Mathlib

/-!
A shallow embedding of the `mtx` package (status-text parser in `mtx.go`) and
its mock library changer (`mock/mock.go`), together with theorems checking the
specification's claims against the embedded code.

Conventions of the embedding:
* Raw status text is modelled at line granularity (`List String`): the Go code
  writes newline-terminated lines into a buffer and the parser splits them back
  with `bufio.Scanner`, so a list of lines is the exact information exchanged.
* Go `int` values that flow through `strconv.Atoi` or slice indexing are
  modelled as `Int`; out-of-range slice accesses (Go panics) are modelled as
  `Option.none` outcomes.
* The Go regexps are fixed patterns made only of literals, `\s*`, `(\d*)` and
  `(.*)`; they are embedded as element lists interpreted by a leftmost,
  greedy backtracking matcher (`reFind`), matching Go's `FindStringSubmatch`
  semantics for alternation-free patterns.
-/

namespace Mtx

/-- Slot types, mirroring the `SlotType` constants of `mtx.go`. -/
inductive SlotType
  | dataTransfer
  | storage
  | mail
deriving DecidableEq, Repr

/-- A tape volume (`mtx.Volume`): serial string and home slot number. -/
structure Volume where
  serial : String
  home : Int
deriving DecidableEq, Repr

/-- A slot (`mtx.Slot`): number, type, and optional resident volume. -/
structure Slot where
  num : Int
  type : SlotType
  vol : Option Volume
deriving DecidableEq, Repr

/-- One element of an embedded regular expression: a literal chunk, a
non-capturing `\s*`, a capturing `(\d*)`, or a capturing `(.*)`. -/
inductive RElem
  | lit : List Char → RElem
  | wsStar : RElem
  | digitStar : RElem
  | dotStar : RElem
deriving DecidableEq, Repr

/-- Go's `\s` character class: `[\t\n\f\r \v]`. -/
def isGoSpace (c : Char) : Bool :=
  c = ' ' || c = '\t' || c = '\n' || c = '\r' || c = '\x0b' || c = '\x0c'

/-- Length of the maximal prefix of `cs` whose characters satisfy `p`. -/
def runLen (p : Char → Bool) : List Char → Nat
  | [] => 0
  | c :: cs => if p c then runLen p cs + 1 else 0

/-- All ways to split off a (possibly empty) run of characters satisfying
`p`, longest first — the greedy preference order of a star. -/
def descSplits (p : Char → Bool) (cs : List Char) : List (List Char × List Char) :=
  ((List.range (runLen p cs + 1)).reverse).map fun k => (cs.take k, cs.drop k)

/-- Advance one pending match state over one pattern element. A state is
`(remaining input, captures so far)`; the returned alternatives are in the
greedy backtracking preference order (longest star consumption first). -/
def stepElem (e : RElem) (st : List Char × List (List Char)) :
    List (List Char × List (List Char)) :=
  match e with
  | .lit s => if s.isPrefixOf st.1 then [(st.1.drop s.length, st.2)] else []
  | .wsStar => (descSplits isGoSpace st.1).map fun q => (q.2, st.2)
  | .digitStar => (descSplits Char.isDigit st.1).map fun q => (q.2, st.2 ++ [q.1])
  | .dotStar =>
      (descSplits (fun c => c != '\n') st.1).map fun q => (q.2, st.2 ++ [q.1])

/-- Match a pattern at the current position (the match may end before the end
of the input, as with Go's unanchored regexps); return the captured groups in
order. Candidate states are threaded through the pattern in depth-first
backtracking order (greedy stars first), so the head of the surviving list is
the match Go's leftmost-first submatch semantics selects for these
alternation-free patterns. -/
def matchSeq (ps : List RElem) (cs : List Char) : Option (List (List Char)) :=
  (ps.foldl (fun sts e => sts.flatMap (stepElem e)) [(cs, [])]).head?.map Prod.snd

/-- `FindStringSubmatch`: try the pattern at each start position, leftmost
first; return the captures of the first successful match, or `none`. -/
def findSubmatch (ps : List RElem) : List Char → Option (List (List Char))
  | [] => matchSeq ps []
  | c :: cs' =>
    match matchSeq ps (c :: cs') with
    | some caps => some caps
    | none => findSubmatch ps cs'

/-- Literal pattern element from a string. -/
def litS (s : String) : RElem := .lit s.data

/-- Run an embedded regexp on a string, returning captured groups as strings. -/
def reFind (ps : List RElem) (s : String) : Option (List String) :=
  (findSubmatch ps s.data).map (List.map fun cs => String.mk cs)

/-- Group accessor using Go's submatch numbering: `grp m i` is `matches[i]`
(group 1 is the first capture). -/
def grp (m : List String) (i : Nat) : String := m.getD (i - 1) ""

/-- `\s*Storage Changer\s*(.*):(\d*) Drives, (\d*) Slots \((\d*) Import/Export \)` -/
def hdrRegexp : List RElem :=
  [.wsStar, litS "Storage Changer", .wsStar, .dotStar, litS ":", .digitStar,
   litS " Drives, ", .digitStar, litS " Slots (", .digitStar,
   litS " Import/Export )"]

/-- `Data Transfer Element (\d*):(.*)` -/
def driveRegexp : List RElem :=
  [litS "Data Transfer Element ", .digitStar, litS ":", .dotStar]

/-- `Full \(Storage Element (\d*) Loaded\):VolumeTag = (.*)` -/
def driveElementRegexp : List RElem :=
  [litS "Full (Storage Element ", .digitStar, litS " Loaded):VolumeTag = ",
   .dotStar]

/-- `\s*Storage Element (\d*):(.*)` -/
def slotRegexp : List RElem :=
  [.wsStar, litS "Storage Element ", .digitStar, litS ":", .dotStar]

/-- `\s*Storage Element (\d*) IMPORT/EXPORT:(.*)` -/
def mailSlotRegexp : List RElem :=
  [.wsStar, litS "Storage Element ", .digitStar, litS " IMPORT/EXPORT:",
   .dotStar]

/-- `Full :VolumeTag=(.*)` -/
def slotElementRegexp : List RElem :=
  [litS "Full :VolumeTag=", .dotStar]

/-- Accumulate the value of a run of decimal digits; `none` on a non-digit. -/
def digitsAcc : List Char → Nat → Option Nat
  | [], acc => some acc
  | c :: cs, acc =>
      if c.isDigit then digitsAcc cs (acc * 10 + (c.toNat - '0'.toNat))
      else none

/-- `strconv.Atoi`, faithful for values inside the machine-int range (the
claims never exercise the range-error branch): optional sign followed by at
least one digit, anything else is an `invalid syntax` error. -/
def goAtoi (s : String) : Except String Int :=
  let err : Except String Int :=
    .error ("strconv.Atoi: parsing \"" ++ s ++ "\": invalid syntax")
  match s.data with
  | [] => err
  | '+' :: cs =>
    match cs, digitsAcc cs 0 with
    | _ :: _, some n => .ok (n : Int)
    | _, _ => err
  | '-' :: cs =>
    match cs, digitsAcc cs 0 with
    | _ :: _, some n => .ok (-(n : Int))
    | _, _ => err
  | cs =>
    match digitsAcc cs 0 with
    | some n => .ok (n : Int)
    | none => err

/-- The `params` map of `Changer.params`. A Go map read of a missing key
yields the zero value, so the empty map (returned for empty input, where
`scanner.Scan()` is false) is represented by all-zero fields; the callers in
`mtx.go` read exactly these three keys. -/
structure Params where
  maxDrives : Int
  numSlots : Int
  numMailSlots : Int
deriving DecidableEq, Repr

/-- `Changer.params`: scan the first line against `hdrRegexp` and extract the
three counts; no lines at all leaves the map empty with a nil error. -/
def params (status : List String) : Except String Params :=
  match status with
  | [] => .ok ⟨0, 0, 0⟩
  | line :: _ =>
    match reFind hdrRegexp line with
    | none => .error "failed to match mtx status header"
    | some m =>
      match goAtoi (grp m 2) with
      | .error e => .error e
      | .ok maxDrives =>
        match goAtoi (grp m 3) with
        | .error e => .error e
        | .ok numSlots =>
          match goAtoi (grp m 4) with
          | .error e => .error e
          | .ok numMailSlots => .ok ⟨maxDrives, numSlots, numMailSlots⟩

/-- The `elements` map of `Changer.elements`, with its three keys. -/
structure Elems where
  transfer : List Slot
  storage : List Slot
  mail : List Slot
deriving DecidableEq, Repr

/-- The body of `Changer.elements`'s scan loop: classify each line as a data
transfer, storage, or mail element (tried in that order), parse the nested
`Full` encodings, and append to the corresponding list; a line matching no
pattern is a fatal error. -/
def elementsLoop : List String → Elems → Except String Elems
  | [], es => .ok es
  | line :: rest, es =>
    match reFind driveRegexp line with
    | some m =>
      match goAtoi (grp m 1) with
      | .error e => .error e
      | .ok elemnum =>
        if grp m 2 ≠ "Empty" then
          match reFind driveElementRegexp (grp m 2) with
          | none => .error "failed to parse transfer element"
          | some m2 =>
            match goAtoi (grp m2 1) with
            | .error e => .error e
            | .ok home =>
              elementsLoop rest
                { es with transfer := es.transfer ++
                    [⟨elemnum, .dataTransfer, some ⟨grp m2 2, home⟩⟩] }
        else
          elementsLoop rest
            { es with transfer := es.transfer ++
                [⟨elemnum, .dataTransfer, none⟩] }
    | none =>
      match reFind slotRegexp line with
      | some m =>
        match goAtoi (grp m 1) with
        | .error e => .error e
        | .ok elemnum =>
          if grp m 2 ≠ "Empty" then
            match reFind slotElementRegexp (grp m 2) with
            | none => .error ("failed to parse slot element: " ++ grp m 2)
            | some m2 =>
              elementsLoop rest
                { es with storage := es.storage ++
                    [⟨elemnum, .storage, some ⟨grp m2 1, elemnum⟩⟩] }
          else
            elementsLoop rest
              { es with storage := es.storage ++ [⟨elemnum, .storage, none⟩] }
      | none =>
        match reFind mailSlotRegexp line with
        | some m =>
          match goAtoi (grp m 1) with
          | .error e => .error e
          | .ok elemnum =>
            if grp m 2 ≠ "Empty" then
              match reFind slotElementRegexp (grp m 2) with
              | none => .error "failed to parse slot element"
              | some m2 =>
                elementsLoop rest
                  { es with mail := es.mail ++
                      [⟨elemnum, .mail, some ⟨grp m2 1, elemnum⟩⟩] }
            else
              elementsLoop rest
                { es with mail := es.mail ++ [⟨elemnum, .mail, none⟩] }
        | none => .error "failed to parse slot"

/-- `Changer.elements`: skip the header line, then scan element lines. -/
def elements (status : List String) : Except String Elems :=
  elementsLoop (status.drop 1) ⟨[], [], []⟩

/-- Go slice read `l[i]` on an `int` index, with panics modelled as `none`. -/
def lget (l : List Slot) (i : Int) : Option Slot :=
  if i < 0 then none else l[i.toNat]?

/-- Go slice element update at an `int` index; only applied after a
corresponding `lget` has succeeded, so the out-of-range identity case is
never reached by the embedded operations. -/
def lset (l : List Slot) (i : Int) (a : Slot) : List Slot :=
  if i < 0 then l else l.set i.toNat a

/-- The mock changer (`mock.Changer`): a drive array, a joint
storage+mail slot array, and the construction counts. -/
structure MockChanger where
  drives : List Slot
  slots : List Slot
  numDrives : Nat
  numStorageSlots : Nat
  numMailSlots : Nat
deriving DecidableEq, Repr

/-- `fmt.Sprintf("S%05dL6", i)`. -/
def padSerial (i : Nat) : String :=
  let d := toString i
  "S" ++ String.mk (List.replicate (5 - d.length) '0') ++ d ++ "L6"

/-- The body of `mock.New`'s slot loop at index `i`, applying its conditional
assignments in source order. The Go comparisons `i == numStorageSlots-1` and
`i == numStorageSlots+numMailSlots-1` (on machine ints, where the right side
can be `-1`) are written `i + 1 == ...` to keep the same meaning on `Nat`.
Note the source seeds the last mail slot's volume with `Home: i`, not `i+1`. -/
def newSlot (numStorageSlots numMailSlots numVolumes i : Nat) : Slot :=
  let s : Slot := ⟨(i : Int) + 1, .storage, none⟩
  let s := if i < numVolumes then
      { s with vol := some ⟨padSerial i, (i : Int) + 1⟩ } else s
  let s := if i + 1 = numStorageSlots then
      { s with vol := some ⟨"CLN000L1", (i : Int) + 1⟩ } else s
  let s := if numStorageSlots ≤ i then { s with type := .mail } else s
  let s := if i + 1 = numStorageSlots + numMailSlots then
      { s with vol := some ⟨padSerial numVolumes, (i : Int)⟩ } else s
  s

/-- `mock.New`. -/
def New (numDrives numStorageSlots numMailSlots numVolumes : Nat) :
    MockChanger where
  drives := (List.range numDrives).map fun i => ⟨(i : Int), .dataTransfer, none⟩
  slots := (List.range (numStorageSlots + numMailSlots)).map
    (newSlot numStorageSlots numMailSlots numVolumes)
  numDrives := numDrives
  numStorageSlots := numStorageSlots
  numMailSlots := numMailSlots

/-- `mock.mtxSlotString`. -/
def mtxSlotString (slot : Slot) : String :=
  match slot.vol with
  | none => "Empty"
  | some v =>
    if slot.type = .dataTransfer then
      "Full (Storage Element " ++ toString v.home ++ " Loaded):VolumeTag = "
        ++ v.serial
    else
      "Full :VolumeTag=" ++ v.serial

/-- `mock.Changer.status`: the header line, then one line per drive (indexed
by loop position), then one line per storage/mail slot (mail slots tagged
with the IMPORT/EXPORT marker). -/
def MockChanger.status (c : MockChanger) : List String :=
  ("  Storage Changer /dev/mock:" ++ toString c.numDrives ++ " Drives, "
      ++ toString (c.numStorageSlots + c.numMailSlots) ++ " Slots ( "
      ++ toString c.numMailSlots ++ " Import/Export )")
  :: (c.drives.enum.map fun p =>
        "Data Transfer Element " ++ toString p.1 ++ ":" ++ mtxSlotString p.2)
  ++ (c.slots.map fun slot =>
        "      Storage Element " ++ toString slot.num
          ++ (if slot.type = .mail then " IMPORT/EXPORT" else "")
          ++ ":" ++ mtxSlotString slot)

/-- `mock.Changer.load`: move the slot's volume reference (possibly nil) into
the drive and empty the slot; a panic from an out-of-range index is `none`. -/
def MockChanger.load (c : MockChanger) (slotnum drivenum : Int) :
    Option MockChanger :=
  match lget c.slots (slotnum - 1), lget c.drives drivenum with
  | some slot, some drv =>
      some { c with
        drives := lset c.drives drivenum { drv with vol := slot.vol },
        slots := lset c.slots (slotnum - 1) { slot with vol := none } }
  | _, _ => none

/-- `mock.Changer.unload`: with the sentinel slot number 0 the destination is
the drive volume's `Home` (a nil drive volume is a nil-pointer panic,
modelled `none`); the drive's volume reference is moved to the destination
slot and the drive emptied. -/
def MockChanger.unload (c : MockChanger) (slotnum drivenum : Int) :
    Option MockChanger :=
  match lget c.drives drivenum with
  | none => none
  | some drv =>
    match (if slotnum = 0 then (drv.vol.map Volume.home) else some slotnum) with
    | none => none
    | some slotnum' =>
      match lget c.slots (slotnum' - 1) with
      | none => none
      | some slot =>
        some { c with
          slots := lset c.slots (slotnum' - 1) { slot with vol := drv.vol },
          drives := lset c.drives drivenum { drv with vol := none } }

/-- `mock.Changer.transfer`: validated move between two slots. `none` is an
index panic; `some (.error _)` is a returned transfer error (state
unchanged); `some (.ok _)` is the successful move. -/
def MockChanger.transfer (c : MockChanger) (a b : Int) :
    Option (Except String MockChanger) :=
  match lget c.slots (a - 1) with
  | none => none
  | some sa =>
    if sa.vol = none then
      some (.error "unable to transfer volume: no volume in slot")
    else
      match lget c.slots (b - 1) with
      | none => none
      | some sb =>
        if sb.vol ≠ none then
          some (.error "unable to transfer volume: slot already occupied")
        else
          some (.ok { c with
            slots := lset (lset c.slots (b - 1) { sb with vol := sa.vol })
              (a - 1) { sa with vol := none } })

/-- `mock.Changer.Do`: command dispatch. The outcome is
`(output bytes or nil, returned error or nil, state after the call)`, with
Go panics as the outer `none`. Note the source returns `status()` for the
command name "status" before any arity check. -/
def MockChanger.Do (c : MockChanger) (args : List String) :
    Option (Option (List String) × Option String × MockChanger) :=
  match args with
  | [] => some (none, some "no command given", c)
  | cmd :: _ =>
    if cmd = "status" then some (some c.status, none, c)
    else
      match args with
      | [_, sa, sb] =>
        match goAtoi sa with
        | .error e => some (none, some e, c)
        | .ok a =>
          match goAtoi sb with
          | .error e => some (none, some e, c)
          | .ok b =>
            if cmd = "load" then
              (c.load a b).map fun c' => (none, none, c')
            else if cmd = "unload" then
              (c.unload a b).map fun c' => (none, none, c')
            else if cmd = "transfer" then
              match c.transfer a b with
              | none => none
              | some (.error e) => some (none, some e, c)
              | some (.ok c') => some (none, none, c')
            else
              some (none, some "mtx/mock: unknown or unsupported mtx command", c)
      | _ => some (none, some "wrong number of arguments", c)

/-- The mock changer seen through the `mtx.Interface` boundary, as used by
the `Changer` convenience methods (which only issue `status`, a command on
which `Do` neither errs nor panics; the panic case is mapped to an error
marker for totality). -/
def mockExec (c : MockChanger) (args : List String) :
    Except String (List String) :=
  match c.Do args with
  | some (out, none, _) => .ok (out.getD [])
  | some (_, some e, _) => .error e
  | none => .error "panic: runtime error"

/-- `Changer.MaxDrives`, generic in the `Interface` implementation. -/
def ChangerMaxDrives (doFn : List String → Except String (List String)) :
    Except String Int :=
  match doFn ["status"] with
  | .error e => .error e
  | .ok st =>
    match params st with
    | .error e => .error e
    | .ok p => .ok p.maxDrives

/-- `Changer.NumSlots`. -/
def ChangerNumSlots (doFn : List String → Except String (List String)) :
    Except String Int :=
  match doFn ["status"] with
  | .error e => .error e
  | .ok st =>
    match params st with
    | .error e => .error e
    | .ok p => .ok p.numSlots

/-- `Changer.NumStorageSlots` (`numSlots - numMailSlots`). -/
def ChangerNumStorageSlots (doFn : List String → Except String (List String)) :
    Except String Int :=
  match doFn ["status"] with
  | .error e => .error e
  | .ok st =>
    match params st with
    | .error e => .error e
    | .ok p => .ok (p.numSlots - p.numMailSlots)

/-- `Changer.NumMailSlots`. -/
def ChangerNumMailSlots (doFn : List String → Except String (List String)) :
    Except String Int :=
  match doFn ["status"] with
  | .error e => .error e
  | .ok st =>
    match params st with
    | .error e => .error e
    | .ok p => .ok p.numMailSlots

/-- The `mtx.Status` aggregate structure. -/
structure StatusSt where
  maxDrives : Int
  numSlots : Int
  numStorageSlots : Int
  numMailSlots : Int
  drives : List Slot
  slots : List Slot
deriving DecidableEq, Repr

/-- `Changer.Status`. The source writes `params, err := chgr.params(status)`
immediately followed by `elems, err := chgr.elements(status)` and then
returns a nil error unconditionally: the error of `params` is overwritten,
neither error is ever checked, and a failed call leaves a nil map whose
reads produce Go zero values (0 for the counts, nil slices for the lists).
That error-discarding behaviour is embedded as written. -/
def ChangerStatus (doFn : List String → Except String (List String)) :
    Except String StatusSt :=
  match doFn ["status"] with
  | .error e => .error e
  | .ok st =>
    let p := match params st with
      | .ok p => p
      | .error _ => ⟨0, 0, 0⟩
    let es := match elements st with
      | .ok es => es
      | .error _ => ⟨[], [], []⟩
    .ok ⟨p.maxDrives, p.numSlots, p.numSlots - p.numMailSlots, p.numMailSlots,
      es.transfer, es.storage ++ es.mail⟩

/-- A mock state-transition request, as dispatched by `Do`. -/
inductive MOp
  | load (slotnum drivenum : Int)
  | unload (slotnum drivenum : Int)
  | transfer (a b : Int)
deriving DecidableEq, Repr

/-- The state after one operation, as `Do` threads it: a panic is `none`, a
returned transfer error leaves the receiver unchanged. -/
def applyOp (c : MockChanger) : MOp → Option MockChanger
  | .load s d => c.load s d
  | .unload s d => c.unload s d
  | .transfer a b =>
    match c.transfer a b with
    | none => none
    | some (.error _) => some c
    | some (.ok c') => some c'

/-- The guard of claim C5: indices in range, and the documented permissive
overwrites avoided — a load only from an occupied slot into an empty drive,
an unload only from an occupied drive into an empty (effective) slot; a
transfer needs only in-range slots (its failures change nothing). -/
def okOp (c : MockChanger) : MOp → Bool
  | .load s d =>
    (match lget c.slots (s - 1) with
     | some sl => sl.vol.isSome
     | none => false)
    && (match lget c.drives d with
     | some dr => dr.vol.isNone
     | none => false)
  | .unload s d =>
    match lget c.drives d with
    | none => false
    | some dr =>
      match dr.vol with
      | none => false
      | some v =>
        match lget c.slots ((if s = 0 then v.home else s) - 1) with
        | none => false
        | some sl => sl.vol.isNone
  | .transfer a b => (lget c.slots (a - 1)).isSome && (lget c.slots (b - 1)).isSome

/-- Run a sequence of operations, requiring each to satisfy `okOp` in the
state where it executes. -/
def runGuarded (c : MockChanger) : List MOp → Option MockChanger
  | [] => some c
  | op :: ops =>
    if okOp c op then
      match applyOp c op with
      | none => none
      | some c' => runGuarded c' ops
    else none

/-- Serials of the volumes present in a slot list, in slot order. -/
def slotSerials (l : List Slot) : List String :=
  l.filterMap fun s => s.vol.map Volume.serial

/-- Serials contributed by one slot, as a multiset (0 or 1 element). -/
def volSerials (s : Slot) : Multiset String :=
  ((s.vol.map Volume.serial).toList : Multiset String)

/-- Serials of a slot list as a multiset. -/
def msSerials (l : List Slot) : Multiset String := (slotSerials l : Multiset String)

/-- The multiset of volume serials present across all slots and drives. -/
def serials (c : MockChanger) : Multiset String :=
  msSerials c.slots + msSerials c.drives

end Mtx

deriving instance DecidableEq for Except

namespace Mtx

/-- C1: the claimed parser/mock round trip fails already at the header of the
freshly seeded `New 8 32 4 16` state (reachable by the empty operation
sequence): the mock's `status` renders `... Slots ( 4 Import/Export )` with a
space after the opening parenthesis, while `hdrRegexp` demands digits
immediately after `\(`, so `params` rejects the mock's own output — while
`elements` does reconstruct every drive and slot, with exactly the seeded
serials, from the very same text. -/
theorem claim_C1 :
    params ((New 8 32 4 16).status) = .error "failed to match mtx status header"
    ∧ (elements ((New 8 32 4 16).status)).toOption.map
        (fun es => ((es.transfer.map Slot.vol).map (Option.map Volume.serial),
          ((es.storage ++ es.mail).map Slot.vol).map (Option.map Volume.serial)))
      = some (((New 8 32 4 16).drives.map Slot.vol).map (Option.map Volume.serial),
          ((New 8 32 4 16).slots.map Slot.vol).map (Option.map Volume.serial))
    ∧ reFind hdrRegexp
        "  Storage Changer /dev/mock:8 Drives, 36 Slots (4 Import/Export )"
      = some ["/dev/mock", "8", "36", "4"] := by
  decide

/-- C2: the seeded fixture of `New 8 32 4 16` holds as claimed in the arrays
(drives 0..7 empty, storage slots 1..16 carrying `S00000L6`..`S00015L6`,
storage slot 32 carrying `CLN000L1`, and the last mail slot — slot number 36,
not 33 — carrying `S00016L6`), but the `Changer` count methods do not return
`32`/`4`/`8` without error: each of them fails with the header
`FormatError`, because `hdrRegexp` cannot match the mock's header line. -/
theorem claim_C2 :
    (New 8 32 4 16).drives
      = ((List.range 8).map fun d => ⟨(d : Int), .dataTransfer, none⟩)
    ∧ ((New 8 32 4 16).slots.take 16
      = ((List.range 16).map fun i =>
          ⟨(i : Int) + 1, .storage, some ⟨padSerial i, (i : Int) + 1⟩⟩))
    ∧ lget (New 8 32 4 16).slots 31 = some ⟨32, .storage, some ⟨"CLN000L1", 32⟩⟩
    ∧ lget (New 8 32 4 16).slots 35 = some ⟨36, .mail, some ⟨"S00016L6", 35⟩⟩
    ∧ ChangerNumStorageSlots (mockExec (New 8 32 4 16))
        = .error "failed to match mtx status header"
    ∧ ChangerNumMailSlots (mockExec (New 8 32 4 16))
        = .error "failed to match mtx status header"
    ∧ ChangerMaxDrives (mockExec (New 8 32 4 16))
        = .error "failed to match mtx status header" := by
  decide

/-- C9: `Changer.Status` does not surface the header `FormatError` of
`params`: on a text whose header line is malformed but whose element lines
parse, `params` fails, yet `Status` returns a nil error together with zero
counts (and the parsed element lists), because the source overwrites and
never checks the error variable and unconditionally returns nil. -/
theorem claim_C9 :
    params ["bogus", "Data Transfer Element 0:Empty"]
      = .error "failed to match mtx status header"
    ∧ elements ["bogus", "Data Transfer Element 0:Empty"]
      = .ok ⟨[⟨0, .dataTransfer, none⟩], [], []⟩
    ∧ ChangerStatus (fun _ => .ok ["bogus", "Data Transfer Element 0:Empty"])
      = .ok ⟨0, 0, 0, 0, [⟨0, .dataTransfer, none⟩], []⟩ := by
  decide

/-- C4 counterexample: an entirely empty status text is missing its header
line, yet neither `params` nor `elements` fails on it — the scanner loop
simply never runs, `params` returns the empty (all-zero) map and `elements`
the empty inventory, both with a nil error. -/
theorem claim_C4_counterexample :
    params ([] : List String) = .ok ⟨0, 0, 0⟩
    ∧ elements ([] : List String) = .ok ⟨[], [], []⟩ := by
  decide

/-- C8 counterexample: `Do` with the command "status" and two extra arguments
does not reject the arity — it performs the status operation, returning the
rendered text with a nil error, because the source dispatches on "status"
before any arity check. -/
theorem claim_C8_counterexample :
    (New 8 32 4 16).Do ["status", "1", "2"]
      = some (some ((New 8 32 4 16).status), none, New 8 32 4 16) := by
  decide

theorem lget_lset_self {l : List Slot} {i : Int} {s : Slot} (a : Slot)
    (h : lget l i = some s) : lget (lset l i a) i = some a := by
  unfold lget lset at *
  by_cases hi : i < 0
  · simp [hi] at h
  · obtain ⟨hlt, -⟩ := List.getElem?_eq_some_iff.mp (by simpa [hi] using h)
    simp [hi, List.getElem?_set_self hlt]

theorem lget_lset_ne {l : List Slot} {i j : Int} (a : Slot) (hij : i ≠ j) :
    lget (lset l i a) j = lget l j := by
  unfold lget lset
  by_cases hi : i < 0
  · simp [hi]
  · by_cases hj : j < 0
    · simp [hi, hj]
    · have hne : i.toNat ≠ j.toNat := by omega
      simp [hi, hj, List.getElem?_set_ne hne]

/-- C3: with both slot numbers in range, `transfer a b` returns the
no-volume `TransferError` whenever slot `a` is empty, returns a
`TransferError` whenever slot `b` is occupied (whatever `a` holds), and in
both failure cases the state as threaded by the dispatcher is unchanged;
otherwise it succeeds, emptying slot `a`, placing `a`'s former volume in
slot `b`, and leaving every other slot and all drives unchanged. -/
theorem claim_C3 (c : MockChanger) (a b : Int) (sa sb : Slot)
    (ha : lget c.slots (a - 1) = some sa) (hb : lget c.slots (b - 1) = some sb) :
    (sa.vol = none →
      c.transfer a b = some (.error "unable to transfer volume: no volume in slot")
      ∧ applyOp c (.transfer a b) = some c)
    ∧ (sb.vol ≠ none →
      (∃ msg, c.transfer a b = some (.error msg))
      ∧ applyOp c (.transfer a b) = some c)
    ∧ (∀ v, sa.vol = some v → sb.vol = none →
      ∃ c', c.transfer a b = some (.ok c')
        ∧ lget c'.slots (a - 1) = some { sa with vol := none }
        ∧ lget c'.slots (b - 1) = some { sb with vol := some v }
        ∧ (∀ j, j ≠ a - 1 → j ≠ b - 1 → lget c'.slots j = lget c.slots j)
        ∧ c'.drives = c.drives) := by
  refine ⟨?_, ?_, ?_⟩
  · intro hsa
    constructor <;> simp [MockChanger.transfer, applyOp, ha, hsa]
  · intro hsb
    by_cases hsa : sa.vol = none
    · constructor
      · exact ⟨"unable to transfer volume: no volume in slot",
          by simp [MockChanger.transfer, ha, hsa]⟩
      · simp [MockChanger.transfer, applyOp, ha, hsa]
    · constructor
      · exact ⟨"unable to transfer volume: slot already occupied",
          by simp [MockChanger.transfer, ha, hb, hsa, hsb]⟩
      · simp [MockChanger.transfer, applyOp, ha, hb, hsa, hsb]
  · intro v hv hsbn
    have hne : a - 1 ≠ b - 1 := by
      intro he
      rw [he, hb] at ha
      cases ha
      rw [hv] at hsbn
      cases hsbn
    refine ⟨{ c with slots := lset (lset c.slots (b - 1) { sb with vol := some v }) (a - 1) { sa with vol := none } }, ?_, ?_, ?_, ?_, rfl⟩
    · simp [MockChanger.transfer, ha, hb, hv, hsbn]
    · exact lget_lset_self _ (by rw [lget_lset_ne _ (Ne.symm hne)]; exact ha)
    · show lget (lset _ (a - 1) _) (b - 1) = _
      rw [lget_lset_ne _ hne]
      exact lget_lset_self _ hb
    · intro j hj1 hj2
      show lget (lset _ (a - 1) _) j = _
      rw [lget_lset_ne _ (Ne.symm hj1), lget_lset_ne _ (Ne.symm hj2)]

theorem claim_C3_witness :
    ((∃ msg, (New 8 32 4 16).transfer 1 2 = some (.error msg))
      ∧ applyOp (New 8 32 4 16) (.transfer 1 2) = some (New 8 32 4 16)) :=
  (claim_C3 (New 8 32 4 16) 1 2
      ⟨1, .storage, some ⟨"S00000L6", 1⟩⟩ ⟨2, .storage, some ⟨"S00001L6", 2⟩⟩
      (by decide) (by decide)).2.1 (by decide)

/-- C7: with `slotNum` (1-based) and `driveNum` (0-based) in range, `load`
always succeeds: the drive receives whatever the slot held (possibly
nothing, discarding the drive's previous volume), the slot becomes empty,
and every other slot, every other drive, and the stored counts are
unchanged. -/
theorem claim_C7 (c : MockChanger) (s d : Int) (sl dr : Slot)
    (hs : lget c.slots (s - 1) = some sl) (hd : lget c.drives d = some dr) :
    ∃ c', c.load s d = some c'
      ∧ lget c'.drives d = some { dr with vol := sl.vol }
      ∧ lget c'.slots (s - 1) = some { sl with vol := none }
      ∧ (∀ j, j ≠ s - 1 → lget c'.slots j = lget c.slots j)
      ∧ (∀ j, j ≠ d → lget c'.drives j = lget c.drives j)
      ∧ c'.numDrives = c.numDrives ∧ c'.numStorageSlots = c.numStorageSlots
      ∧ c'.numMailSlots = c.numMailSlots := by
  refine ⟨{ c with drives := lset c.drives d { dr with vol := sl.vol }, slots := lset c.slots (s - 1) { sl with vol := none } }, ?_, ?_, ?_, ?_, ?_, rfl, rfl, rfl⟩
  · simp [MockChanger.load, hs, hd]
  · exact lget_lset_self _ hd
  · exact lget_lset_self _ hs
  · intro j hj
    exact lget_lset_ne _ (Ne.symm hj)
  · intro j hj
    exact lget_lset_ne _ (Ne.symm hj)

theorem claim_C7_witness :
    ∃ c', (New 8 32 4 16).load 1 0 = some c'
      ∧ lget c'.drives 0 = some ⟨0, .dataTransfer, some ⟨"S00000L6", 1⟩⟩
      ∧ lget c'.slots 0 = some ⟨1, .storage, none⟩
      ∧ (∀ j, j ≠ (1 : Int) - 1 → lget c'.slots j = lget (New 8 32 4 16).slots j)
      ∧ (∀ j, j ≠ (0 : Int) → lget c'.drives j = lget (New 8 32 4 16).drives j)
      ∧ c'.numDrives = 8 ∧ c'.numStorageSlots = 32 ∧ c'.numMailSlots = 4 :=
  claim_C7 (New 8 32 4 16) 1 0
    ⟨1, .storage, some ⟨"S00000L6", 1⟩⟩ ⟨0, .dataTransfer, none⟩
    (by decide) (by decide)

/-- C6: `unload` with the sentinel slot number 0 returns the drive's volume
to that volume's `home` slot, and with a nonzero slot number to the explicit
slot; consequently, on the seeded `New 8 32 4 16` state, `load 1 0` followed
by `unload 0 0` restores the initial state exactly — slot 1's volume is back
in storage slot 1 (its home) and drive 0 is empty. -/
theorem claim_C6 :
    (∀ (c : MockChanger) (d : Int) (dr sl : Slot) (v : Volume),
      lget c.drives d = some dr → dr.vol = some v →
      lget c.slots (v.home - 1) = some sl →
      c.unload 0 d = some { c with slots := lset c.slots (v.home - 1) { sl with vol := some v }, drives := lset c.drives d { dr with vol := none } })
    ∧ (∀ (c : MockChanger) (s d : Int) (dr sl : Slot), s ≠ 0 →
      lget c.drives d = some dr → lget c.slots (s - 1) = some sl →
      c.unload s d = some { c with slots := lset c.slots (s - 1) { sl with vol := dr.vol }, drives := lset c.drives d { dr with vol := none } })
    ∧ ((New 8 32 4 16).load 1 0).bind (fun c1 => c1.unload 0 0)
      = some (New 8 32 4 16) := by
  refine ⟨?_, ?_, by decide⟩
  · intro c d dr sl v hd hv hs
    simp [MockChanger.unload, hd, hv, hs]
  · intro c s d dr sl hs0 hd hs
    simp [MockChanger.unload, hd, hs0, hs]

theorem claim_C6_witness :
    MockChanger.unload (New 8 32 4 16) 5 0 = some { New 8 32 4 16 with slots := lset (New 8 32 4 16).slots ((5 : Int) - 1) ⟨5, .storage, none⟩, drives := lset (New 8 32 4 16).drives 0 ⟨0, .dataTransfer, none⟩ } :=
  claim_C6.2.1 (New 8 32 4 16) 5 0
    ⟨0, .dataTransfer, none⟩ ⟨5, .storage, some ⟨"S00004L6", 5⟩⟩
    (by decide) (by decide) (by decide)

/-- C10: the sentinel branch of `unload` dereferences the drive's volume
without a nil check: with the drive in range, `unload 0 d` on an empty drive
is the modelled panic (`none`), while with a volume present (and its home
slot in range) `unload 0 d` completes. -/
theorem claim_C10 (c : MockChanger) (d : Int) (dr : Slot)
    (hd : lget c.drives d = some dr) :
    (dr.vol = none → c.unload 0 d = none)
    ∧ (∀ v, dr.vol = some v → (lget c.slots (v.home - 1)).isSome →
        (c.unload 0 d).isSome) := by
  constructor
  · intro hv
    simp [MockChanger.unload, hd, hv]
  · intro v hv hsl
    obtain ⟨sl, hsl⟩ := Option.isSome_iff_exists.mp hsl
    simp [MockChanger.unload, hd, hv, hsl]

theorem claim_C10_witness :
    MockChanger.unload (New 8 32 4 16) 0 0 = none :=
  (claim_C10 (New 8 32 4 16) 0 ⟨0, .dataTransfer, none⟩ (by decide)).1 rfl

theorem volSerials_vol_none {s : Slot} (h : s.vol = none) : volSerials s = 0 := by
  simp [volSerials, h]

theorem volSerials_vol_eq {s t : Slot} (h : s.vol = t.vol) :
    volSerials s = volSerials t := by
  simp [volSerials, h]

theorem msSerials_append (x y : List Slot) :
    msSerials (x ++ y) = msSerials x + msSerials y := by
  simp [msSerials, slotSerials, List.filterMap_append, Multiset.coe_add]

theorem msSerials_cons (s : Slot) (l : List Slot) :
    msSerials (s :: l) = volSerials s + msSerials l := by
  cases h : s.vol with
  | none => simp [msSerials, slotSerials, volSerials, List.filterMap_cons, h]
  | some v =>
    simp [msSerials, slotSerials, volSerials, List.filterMap_cons, h,
      ← Multiset.cons_coe]

theorem msSerials_set (l : List Slot) (i : Nat) (a : Slot) (h : i < l.length) :
    msSerials (l.set i a) + volSerials l[i] = msSerials l + volSerials a := by
  rw [List.set_eq_take_append_cons_drop, if_pos h]
  conv_rhs => rw [← List.take_append_drop i l, List.drop_eq_getElem_cons h]
  simp only [msSerials_append, msSerials_cons]
  abel

theorem msSerials_lset {l : List Slot} {i : Int} {s : Slot}
    (h : lget l i = some s) (a : Slot) :
    msSerials (lset l i a) + volSerials s = msSerials l + volSerials a := by
  unfold lget at h
  by_cases hi : i < 0
  · simp [hi] at h
  · rw [if_neg hi] at h
    obtain ⟨hlt, hget⟩ := List.getElem?_eq_some_iff.mp h
    unfold lset
    rw [if_neg hi]
    have hs := msSerials_set l i.toNat a hlt
    rw [hget] at hs
    exact hs

theorem serials_applyOp (c : MockChanger) (op : MOp) (h : okOp c op = true) :
    ∃ c', applyOp c op = some c' ∧ serials c' = serials c := by
  cases op with
  | load s d =>
    rw [okOp, Bool.and_eq_true] at h
    obtain ⟨h1, h2⟩ := h
    cases hsl : lget c.slots (s - 1) with
    | none => rw [hsl] at h1; simp at h1
    | some sl =>
      cases hdr : lget c.drives d with
      | none => rw [hdr] at h2; simp at h2
      | some dr =>
        rw [hsl] at h1
        rw [hdr] at h2
        simp only [Option.isNone_iff_eq_none] at h2
        refine ⟨{ c with drives := lset c.drives d { dr with vol := sl.vol }, slots := lset c.slots (s - 1) { sl with vol := none } }, by simp [applyOp, MockChanger.load, hsl, hdr], ?_⟩
        unfold serials
        have hA := msSerials_lset hsl { sl with vol := none }
        have hB := msSerials_lset hdr { dr with vol := sl.vol }
        rw [volSerials_vol_none (show ({ sl with vol := none } : Slot).vol = none from rfl), add_zero] at hA
        rw [volSerials_vol_none h2, add_zero,
          volSerials_vol_eq (show ({ dr with vol := sl.vol } : Slot).vol = sl.vol from rfl)] at hB
        show msSerials (lset c.slots (s - 1) _) + msSerials (lset c.drives d _) = _
        rw [hB, ← hA]
        abel
  | unload s d =>
    rw [okOp] at h
    cases hdr : lget c.drives d with
    | none => rw [hdr] at h; simp at h
    | some dr =>
      simp only [hdr] at h
      cases hv : dr.vol with
      | none => simp only [hv] at h; simp at h
      | some v =>
        simp only [hv] at h
        cases hsl : lget c.slots ((if s = 0 then v.home else s) - 1) with
        | none => simp only [hsl] at h; simp at h
        | some sl =>
          simp only [hsl, Option.isNone_iff_eq_none] at h
          refine ⟨{ c with slots := lset c.slots ((if s = 0 then v.home else s) - 1) { sl with vol := dr.vol }, drives := lset c.drives d { dr with vol := none } }, ?_, ?_⟩
          · by_cases hs0 : s = 0
            · subst hs0
              rw [if_pos rfl] at hsl
              simp [applyOp, MockChanger.unload, hdr, hv, hsl]
            · rw [if_neg hs0] at hsl
              simp [applyOp, MockChanger.unload, hdr, hv, hs0, hsl]
          · unfold serials
            have hA := msSerials_lset hsl { sl with vol := dr.vol }
            have hB := msSerials_lset hdr { dr with vol := none }
            rw [volSerials_vol_none h, add_zero,
              volSerials_vol_eq (show ({ sl with vol := dr.vol } : Slot).vol = dr.vol from rfl)] at hA
            rw [volSerials_vol_none (show ({ dr with vol := none } : Slot).vol = none from rfl), add_zero] at hB
            show msSerials (lset c.slots _ _) + msSerials (lset c.drives d _) = _
            rw [hA, ← hB]
            abel
  | transfer a b =>
    rw [okOp, Bool.and_eq_true] at h
    obtain ⟨h1, h2⟩ := h
    obtain ⟨sa, hsa⟩ := Option.isSome_iff_exists.mp h1
    obtain ⟨sb, hsb⟩ := Option.isSome_iff_exists.mp h2
    cases hva : sa.vol with
    | none => exact ⟨c, by simp [applyOp, MockChanger.transfer, hsa, hva], rfl⟩
    | some v =>
      cases hvb : sb.vol with
      | some w =>
        refine ⟨c, ?_, rfl⟩
        simp [applyOp, MockChanger.transfer, hsa, hsb, hva, hvb]
      | none =>
        have hne : a - 1 ≠ b - 1 := by
          intro he
          rw [he, hsb] at hsa
          cases hsa
          rw [hva] at hvb
          cases hvb
        refine ⟨{ c with slots := lset (lset c.slots (b - 1) { sb with vol := sa.vol }) (a - 1) { sa with vol := none } }, ?_, ?_⟩
        · simp [applyOp, MockChanger.transfer, hsa, hsb, hva, hvb]
        · unfold serials
          have hgetL1 : lget (lset c.slots (b - 1) { sb with vol := sa.vol }) (a - 1) = some sa := by
            rw [lget_lset_ne _ (Ne.symm hne)]
            exact hsa
          have h1' := msSerials_lset hsb { sb with vol := sa.vol }
          have h2' := msSerials_lset hgetL1 { sa with vol := none }
          rw [volSerials_vol_none hvb, add_zero,
            volSerials_vol_eq (show ({ sb with vol := sa.vol } : Slot).vol = sa.vol from rfl)] at h1'
          rw [volSerials_vol_none (show ({ sa with vol := none } : Slot).vol = none from rfl), add_zero, h1'] at h2'
          show msSerials (lset (lset c.slots (b - 1) _) (a - 1) _) + msSerials c.drives = _
          rw [add_right_cancel h2']

/-- C5: along any sequence of operations whose indices are in range and that
avoids the permissive overwrites (loads only from an occupied slot into an
empty drive, unloads only from an occupied drive into an empty destination
slot; transfers merely in range, their failures changing nothing), the
multiset of volume serials present across all slots and drives is invariant:
no serial is duplicated and none vanishes. -/
theorem claim_C5 (ops : List MOp) (c c' : MockChanger)
    (h : runGuarded c ops = some c') : serials c' = serials c := by
  induction ops generalizing c with
  | nil =>
    rw [runGuarded] at h
    cases h
    rfl
  | cons op ops ih =>
    rw [runGuarded] at h
    split at h
    · obtain ⟨c1, hc1, hser⟩ := serials_applyOp c op (by assumption)
      rw [hc1] at h
      exact (ih _ h).trans hser
    · cases h

theorem claim_C5_witness :
    serials { New 8 32 4 16 with slots := lset (lset (New 8 32 4 16).slots ((17 : Int) - 1) ⟨17, .storage, some ⟨"S00000L6", 1⟩⟩) ((1 : Int) - 1) ⟨1, .storage, none⟩ } = serials (New 8 32 4 16) :=
  claim_C5 [MOp.load 1 0, MOp.unload 0 0, MOp.transfer 1 17] (New 8 32 4 16) _
    (by decide)

theorem elementsLoop_cons (l : String) (ls : List String) (es : Elems) :
    (∃ e, elementsLoop (l :: ls) es = .error e)
    ∨ (∃ es', elementsLoop (l :: ls) es = elementsLoop ls es') := by
  cases h1 : reFind driveRegexp l with
  | some m =>
    cases h2 : goAtoi (grp m 1) with
    | error e => exact .inl ⟨e, by simp [elementsLoop, h1, h2]⟩
    | ok n =>
      by_cases h3 : grp m 2 = "Empty"
      · exact .inr ⟨_, by simp [elementsLoop, h1, h2, h3]; rfl⟩
      · cases h4 : reFind driveElementRegexp (grp m 2) with
        | none => exact .inl ⟨_, by simp [elementsLoop, h1, h2, h3, h4]; rfl⟩
        | some m2 =>
          cases h5 : goAtoi (grp m2 1) with
          | error e => exact .inl ⟨e, by simp [elementsLoop, h1, h2, h3, h4, h5]⟩
          | ok hm => exact .inr ⟨_, by simp [elementsLoop, h1, h2, h3, h4, h5]; rfl⟩
  | none =>
    cases hs1 : reFind slotRegexp l with
    | some m =>
      cases h2 : goAtoi (grp m 1) with
      | error e => exact .inl ⟨e, by simp [elementsLoop, h1, hs1, h2]⟩
      | ok n =>
        by_cases h3 : grp m 2 = "Empty"
        · exact .inr ⟨_, by simp [elementsLoop, h1, hs1, h2, h3]; rfl⟩
        · cases h4 : reFind slotElementRegexp (grp m 2) with
          | none => exact .inl ⟨_, by simp [elementsLoop, h1, hs1, h2, h3, h4]; rfl⟩
          | some m2 => exact .inr ⟨_, by simp [elementsLoop, h1, hs1, h2, h3, h4]; rfl⟩
    | none =>
      cases hm1 : reFind mailSlotRegexp l with
      | some m =>
        cases h2 : goAtoi (grp m 1) with
        | error e => exact .inl ⟨e, by simp [elementsLoop, h1, hs1, hm1, h2]⟩
        | ok n =>
          by_cases h3 : grp m 2 = "Empty"
          · exact .inr ⟨_, by simp [elementsLoop, h1, hs1, hm1, h2, h3]; rfl⟩
          · cases h4 : reFind slotElementRegexp (grp m 2) with
            | none => exact .inl ⟨_, by simp [elementsLoop, h1, hs1, hm1, h2, h3, h4]; rfl⟩
            | some m2 => exact .inr ⟨_, by simp [elementsLoop, h1, hs1, hm1, h2, h3, h4]; rfl⟩
      | none =>
        exact .inl ⟨"failed to parse slot", by simp [elementsLoop, h1, hs1, hm1]⟩

theorem elementsLoop_err (lines : List String) : ∀ es : Elems,
    (∃ line ∈ lines, reFind driveRegexp line = none ∧ reFind slotRegexp line = none
      ∧ reFind mailSlotRegexp line = none) →
    ∃ e, elementsLoop lines es = .error e := by
  induction lines with
  | nil =>
    intro es h
    simp at h
  | cons l ls ih =>
    intro es h
    obtain ⟨line, hmem, hb1, hb2, hb3⟩ := h
    rcases List.mem_cons.mp hmem with heq | hmem'
    · subst heq
      exact ⟨"failed to parse slot", by simp [elementsLoop, hb1, hb2, hb3]⟩
    · rcases elementsLoop_cons l ls es with ⟨e, he⟩ | ⟨es', hes⟩
      · exact ⟨e, he⟩
      · rw [hes]
        exact ih es' ⟨line, hmem', hb1, hb2, hb3⟩

/-- C4, as the code has it: a nonempty status text whose first line fails the
header pattern makes `params` fail with the header `FormatError` (so no
counts are produced), and any status text one of whose body lines matches
none of the drive, storage, or mail patterns makes `elements` fail with an
error (so no partial inventory is returned) — but an entirely empty text is
the exception: both scanners fall through without error (see the
counterexample). -/
theorem claim_C4 :
    (∀ (line : String) (rest : List String), reFind hdrRegexp line = none →
      params (line :: rest) = .error "failed to match mtx status header")
    ∧ (∀ status : List String,
      (∃ line ∈ status.drop 1, reFind driveRegexp line = none
        ∧ reFind slotRegexp line = none ∧ reFind mailSlotRegexp line = none) →
      ∃ e, elements status = .error e) := by
  constructor
  · intro line rest h
    simp [params, h]
  · intro status h
    rw [elements]
    exact elementsLoop_err (status.drop 1) ⟨[], [], []⟩ h

theorem claim_C4_witness :
    params ["garbage"] = .error "failed to match mtx status header"
    ∧ ∃ e, elements
        ["  Storage Changer /dev/x:1 Drives, 2 Slots (0 Import/Export )",
          "garbage"] = .error e :=
  ⟨claim_C4.1 "garbage" [] (by decide),
    claim_C4.2 _ ⟨"garbage", by decide, by decide, by decide, by decide⟩⟩

/-- C8, as the code has it: an empty argument list and, for commands other
than "status", a wrong arity, a non-numeric argument, or an unknown command
name each produce an error without performing any operation (the state
comes back unchanged) — but the command "status" itself ignores any extra
arguments and performs the status operation regardless of arity (see the
counterexample). -/
theorem claim_C8 :
    (∀ c : MockChanger, c.Do [] = some (none, some "no command given", c))
    ∧ (∀ (c : MockChanger) (extra : List String),
        c.Do ("status" :: extra) = some (some c.status, none, c))
    ∧ (∀ (c : MockChanger) (cmd : String) (rest : List String), cmd ≠ "status" →
        (cmd :: rest).length ≠ 3 →
        c.Do (cmd :: rest) = some (none, some "wrong number of arguments", c))
    ∧ (∀ (c : MockChanger) (cmd x y e : String), cmd ≠ "status" →
        goAtoi x = .error e → c.Do [cmd, x, y] = some (none, some e, c))
    ∧ (∀ (c : MockChanger) (cmd x y : String) (a : Int) (e : String),
        cmd ≠ "status" → goAtoi x = .ok a → goAtoi y = .error e →
        c.Do [cmd, x, y] = some (none, some e, c))
    ∧ (∀ (c : MockChanger) (cmd x y : String) (a b : Int), cmd ≠ "status" →
        cmd ≠ "load" → cmd ≠ "unload" → cmd ≠ "transfer" →
        goAtoi x = .ok a → goAtoi y = .ok b →
        c.Do [cmd, x, y]
          = some (none, some "mtx/mock: unknown or unsupported mtx command", c)) := by
  refine ⟨?_, ?_, ?_, ?_, ?_, ?_⟩
  · intro c
    rfl
  · intro c extra
    simp [MockChanger.Do]
  · intro c cmd rest hcmd hlen
    match rest with
    | [] => simp [MockChanger.Do, hcmd]
    | [x] => simp [MockChanger.Do, hcmd]
    | [x, y] => simp at hlen
    | x :: y :: z :: tl => simp [MockChanger.Do, hcmd]
  · intro c cmd x y e hcmd hx
    simp [MockChanger.Do, hcmd, hx]
  · intro c cmd x y a e hcmd hx hy
    simp [MockChanger.Do, hcmd, hx, hy]
  · intro c cmd x y a b hcmd hl hu ht hx hy
    simp [MockChanger.Do, hcmd, hl, hu, ht, hx, hy]

theorem claim_C8_witness :
    (New 8 32 4 16).Do ["frobnicate", "1", "2"]
      = some (none, some "mtx/mock: unknown or unsupported mtx command",
        New 8 32 4 16) :=
  claim_C8.2.2.2.2.2 (New 8 32 4 16) "frobnicate" "1" "2" 1 2 (by decide)
    (by decide) (by decide) (by decide) (by decide) (by decide)

end Mtx
